import Mathlib

/-!
Shallow embedding of the Schedule_Analyzer frontend hierarchy/rollup logic
(src/frontend/src/ActivitiesPage.tsx, EnhancedActivitiesPage.tsx,
GanttChart.tsx) and proofs about it.

Modelling conventions:
* JS numbers (durations, progress percentages, float days, sort orders)
  are rationals (`ℚ`); date strings are modelled by their epoch-millisecond
  timestamps (`Int`), `none` standing for `null`/`undefined`/empty string
  (all falsy in the JS truthiness tests the code uses).
* `x || 0` on a possibly-missing number is `Option.getD · 0`.
* A possibly-falsy string field (`wbs_id`, `parent_wbs_id`, names, codes)
  is a `String`, with `""` standing for null/undefined/empty — the code
  only ever tests truthiness or `===`-compares against non-empty strings.
* `Math.round` is `⌊q + 1/2⌋` (JS half-up rounding).
* The recursive tree builders in the source have no termination guard;
  they are embedded with an explicit fuel argument, `none` marking fuel
  exhaustion, so that non-termination of the source is expressible as
  "`none` for every fuel".
* `Array.prototype.sort` (stable, comparator-driven) is embedded as a
  stable insertion sort on the comparator's induced boolean order;
  `localeCompare` is embedded as code-point string comparison.
-/

/-- JS `Math.round`: round half up. -/
def jsRound (q : ℚ) : Int := ⌊q + 1/2⌋

/-- `Math.min(...xs)` for a list known non-empty (0 on empty, always guarded). -/
def listMinI : List Int → Int
  | [] => 0
  | x :: xs => xs.foldl min x

/-- `Math.max(...xs)` for a list known non-empty (0 on empty, always guarded). -/
def listMaxI : List Int → Int
  | [] => 0
  | x :: xs => xs.foldl max x

/-- `Math.min(...xs)` over rationals, list known non-empty. -/
def listMinQ : List ℚ → ℚ
  | [] => 0
  | x :: xs => xs.foldl min x

/-- Insert into a sorted list, keeping equal elements in encounter order
(stable, matching JS `Array.prototype.sort`). -/
def insLe (le : α → α → Bool) (x : α) : List α → List α
  | [] => [x]
  | y :: ys => if le x y then x :: y :: ys else y :: insLe le x ys

/-- Stable insertion sort by a boolean `≤`-test. -/
def sortLe (le : α → α → Bool) : List α → List α
  | [] => []
  | x :: xs => insLe le x (sortLe le xs)

namespace ScheduleAnalyzer

/-- Activity record (union of the fields the three views read). -/
structure Activity where
  task_id : String
  task_name : String := ""
  wbs_id : String := ""
  activity_code : String := ""
  early_start_date : Option Int := none
  early_end_date : Option Int := none
  actual_start_date : Option Int := none
  actual_end_date : Option Int := none
  duration_days : Option ℚ := none
  progress_pct : Option ℚ := none
  total_float_days : Option ℚ := none
  task_type : String := ""
  status_code : String := ""
deriving Repr, DecidableEq

/-- WBS record (union of the fields the three views read). -/
structure WBSItem where
  wbs_id : String
  wbs_name : String := ""
  wbs_code : String := ""
  parent_wbs_id : String := ""
  proj_node_flag : String := ""
  level : Int := 0
  sort_order : Option ℚ := none
deriving Repr, DecidableEq

/-- `project_info` as consumed by ActivitiesPage (ids already stringified,
`none` when the optional-chained lookup yields undefined). -/
structure ProjectInfo where
  project_id : Option String := none
  schedule_id : Option String := none
  project_name : String := ""
  schedule_name : String := ""
deriving Repr, DecidableEq

/-- Discriminated `type` field of a derived tree node. -/
inductive NodeType
  | project
  | wbs
  | activity
deriving Repr, DecidableEq

/-- Activities having both early dates non-null — the `validActivities`
filter, identical at all rollup sites (ActivitiesPage.tsx:209,
EnhancedActivitiesPage.tsx:415, GanttChart.tsx:108,198). -/
def validActivities (acts : List Activity) : List Activity :=
  acts.filter fun a => a.early_start_date.isSome && a.early_end_date.isSome

namespace ActivitiesPage

/-- Result record of `calculateWBSStats` (ActivitiesPage.tsx:198-228). -/
structure WBSStats where
  totalDuration : ℚ
  avgProgress : ℚ
  minFloat : ℚ
  startDate : Option Int
  endDate : Option Int
deriving Repr, DecidableEq

/-- `calculateWBSStats` (ActivitiesPage.tsx:198-228): note the progress
average is the plain arithmetic mean over all descendant activities. -/
def calculateWBSStats (allDescendantActivities : List Activity) : WBSStats :=
  if allDescendantActivities.length = 0 then
    { totalDuration := 0, avgProgress := 0, minFloat := 0
      startDate := none, endDate := none }
  else
    let valid := validActivities allDescendantActivities
    let startDate : Option Int :=
      if valid.length > 0 then
        some (listMinI (valid.map fun a => a.early_start_date.getD 0))
      else none
    let endDate : Option Int :=
      if valid.length > 0 then
        some (listMaxI (valid.map fun a => a.early_end_date.getD 0))
      else none
    let totalDuration :=
      (allDescendantActivities.map fun a => a.duration_days.getD 0).sum
    let avgProgress :=
      if allDescendantActivities.length > 0 then
        (allDescendantActivities.map fun a => a.progress_pct.getD 0).sum /
          (allDescendantActivities.length : ℚ)
      else 0
    let minFloat :=
      if allDescendantActivities.length > 0 then
        listMinQ (allDescendantActivities.map fun a => a.total_float_days.getD 0)
      else 0
    { totalDuration := totalDuration, avgProgress := avgProgress
      minFloat := minFloat, startDate := startDate, endDate := endDate }

/-- `HierarchyNode` (ActivitiesPage.tsx:42-68); fields never set keep their
JS-undefined default. -/
structure HierarchyNode where
  id : String
  type : NodeType
  name : String
  level : Nat
  expanded : Bool := false
  isParent : Bool := false
  children : Nat := 0
  parent : String := ""
  wbs_id : String := ""
  activities : List Activity := []
  duration_days : Option ℚ := none
  progress_pct : Option ℚ := none
  total_float_days : Option ℚ := none
  early_start_date : Option Int := none
  early_end_date : Option Int := none
  task_type : String := ""
  status_code : String := ""
deriving Repr, DecidableEq

/-- The key under which `activitiesByWBS` stores an activity
(`activity.wbs_id || 'unassigned'`, ActivitiesPage.tsx:175). -/
def wbsKey (a : Activity) : String :=
  if a.wbs_id = "" then "unassigned" else a.wbs_id

/-- `activitiesByWBS.get(wbsId) || []` (ActivitiesPage.tsx:173-180);
the Map groups by key preserving encounter order. -/
def activitiesByWBS (acts : List Activity) (wbsId : String) : List Activity :=
  acts.filter fun a => wbsKey a = wbsId

/-- The `flatMap` over child WBS inside `getAllDescendantActivities`
(ActivitiesPage.tsx:235-236); `desc` is the recursive call one nesting
level deeper. -/
def descendantsOfChildren (desc : String → Option (List Activity)) :
    List WBSItem → Option (List Activity)
  | [] => some []
  | c :: rest =>
    match desc c.wbs_id with
    | none => none
    | some xs =>
      match descendantsOfChildren desc rest with
      | none => none
      | some ys => some (xs ++ ys)

/-- `getAllDescendantActivities` (ActivitiesPage.tsx:231-239), fueled:
`none` models the source recursion failing to terminate within `fuel`
nesting levels. -/
def getAllDescendantActivities (wbs : List WBSItem) (acts : List Activity) :
    Nat → String → Option (List Activity)
  | 0 => fun _ => none
  | fuel+1 => fun wbsId =>
    let direct := activitiesByWBS acts wbsId
    let childWBS := wbs.filter fun w => w.parent_wbs_id == wbsId
    match descendantsOfChildren (getAllDescendantActivities wbs acts fuel) childWBS with
    | none => none
    | some childActivities => some (direct ++ childActivities)

/-- Root-level test of `buildWBSTree` (ActivitiesPage.tsx:245-250):
parent id falsy, or equal to the stringified project/schedule id. -/
def isRootWBS (pInfo : ProjectInfo) (w : WBSItem) : Bool :=
  w.parent_wbs_id == "" ||
    (match pInfo.project_id with
     | some s => w.parent_wbs_id == s
     | none => false) ||
    (match pInfo.schedule_id with
     | some s => w.parent_wbs_id == s
     | none => false)

/-- Boolean order induced by the activity comparator of
ActivitiesPage.tsx:291-298 (start date when both present and distinct,
task id otherwise). -/
def actLe (a b : Activity) : Bool :=
  match a.early_start_date, b.early_start_date with
  | some x, some y =>
    if x = y then decide (a.task_id ≤ b.task_id) else decide (x < y)
  | _, _ => decide (a.task_id ≤ b.task_id)

/-- The WBS node pushed at ActivitiesPage.tsx:266-286. -/
def wbsNodeOf (expandedNodes : List String) (parentWbsId : Option String)
    (level : Nat) (w : WBSItem) (direct : List Activity)
    (stats : WBSStats) : HierarchyNode :=
  { id := "wbs-" ++ w.wbs_id
    type := .wbs
    name := "📁 " ++ w.wbs_name
    level := level
    children := direct.length
    expanded := expandedNodes.contains w.wbs_id
    isParent := true
    activities := direct
    wbs_id := w.wbs_id
    parent := if parentWbsId.getD "" = "" then "project-root" else parentWbsId.getD ""
    duration_days := some stats.totalDuration
    early_start_date := stats.startDate
    early_end_date := stats.endDate
    progress_pct := some ((jsRound stats.avgProgress : ℤ) : ℚ)
    total_float_days := some stats.minFloat
    task_type := "WBS"
    status_code := "WBS" }

/-- The activity node pushed at ActivitiesPage.tsx:300-309 (and, with
`parent := "unassigned"` and `level := 2`, at 342-352). -/
def activityNode (level : Nat) (parent : String) (a : Activity) : HierarchyNode :=
  { id := a.task_id
    type := .activity
    name := if a.task_name = "" then "Unnamed Activity" else a.task_name
    level := level
    isParent := false
    parent := parent
    wbs_id := a.wbs_id
    duration_days := a.duration_days
    progress_pct := a.progress_pct
    total_float_days := a.total_float_days
    early_start_date := a.early_start_date
    early_end_date := a.early_end_date
    task_type := a.task_type
    status_code := a.status_code }

/-- The `forEach` body of `buildWBSTree` (ActivitiesPage.tsx:257-315),
one sorted child at a time: WBS node, then gated direct activities, then
the child's subtree (NOT gated by the expansion flag), then the remaining
siblings.  `desc` and `tree` are the recursive calls one nesting level
deeper. -/
def buildWBSChildren (acts : List Activity) (expandedNodes : List String)
    (desc : String → Option (List Activity))
    (tree : Option String → Nat → Option (List HierarchyNode)) :
    Option String → Nat → List WBSItem → Option (List HierarchyNode)
  | _, _, [] => some []
  | parentWbsId, level, w :: rest =>
    match desc w.wbs_id with
    | none => none
    | some allDescendantActivities =>
      let directActivities := activitiesByWBS acts w.wbs_id
      let stats := calculateWBSStats allDescendantActivities
      let node := wbsNodeOf expandedNodes parentWbsId level w directActivities stats
      let actNodes :=
        if node.expanded && decide (0 < directActivities.length) then
          (sortLe actLe directActivities).map (activityNode (level+1) w.wbs_id)
        else []
      match tree (some w.wbs_id) (level+1) with
      | none => none
      | some sub =>
        match buildWBSChildren acts expandedNodes desc tree parentWbsId level rest with
        | none => none
        | some tail => some (node :: (actNodes ++ sub ++ tail))

/-- `buildWBSTree` (ActivitiesPage.tsx:242-316), fueled: one unit of fuel
per nesting level, `none` on exhaustion. -/
def buildWBSTree (wbs : List WBSItem) (acts : List Activity)
    (pInfo : ProjectInfo) (expandedNodes : List String) :
    Nat → Option String → Nat → Option (List HierarchyNode)
  | 0 => fun _ _ => none
  | fuel+1 => fun parentWbsId level =>
    let childrenWBS := sortLe (fun a b => decide (a.wbs_name ≤ b.wbs_name))
      (wbs.filter fun w =>
        match parentWbsId with
        | none => isRootWBS pInfo w
        | some p => w.parent_wbs_id == p)
    buildWBSChildren acts expandedNodes
      (getAllDescendantActivities wbs acts fuel)
      (buildWBSTree wbs acts pInfo expandedNodes fuel)
      parentWbsId level childrenWBS

/-- The project root node pushed at ActivitiesPage.tsx:183-192: its
`children` count is the total number of WBS items. -/
def projectNodeOf (pInfo : ProjectInfo) (wbs : List WBSItem)
    (expandedNodes : List String) : HierarchyNode :=
  { id := "project-root"
    type := .project
    name := "📊 " ++ pInfo.project_name ++ " - " ++ pInfo.schedule_name
    level := 0
    expanded := expandedNodes.contains "project-root"
    isParent := true
    children := wbs.length }

/-- The `hierarchy` memo (ActivitiesPage.tsx:151-359). -/
def hierarchy (acts : List Activity) (wbs : List WBSItem)
    (projectInfo : Option ProjectInfo) (expandedNodes : List String)
    (fuel : Nat) : Option (List HierarchyNode) :=
  match projectInfo with
  | none => some []
  | some pInfo =>
    let projectNode := projectNodeOf pInfo wbs expandedNodes
    if projectNode.expanded then
      match buildWBSTree wbs acts pInfo expandedNodes fuel none 1 with
      | none => none
      | some treeNodes =>
        let unassignedActivities := activitiesByWBS acts "unassigned"
        let unassignedPart : List HierarchyNode :=
          if 0 < unassignedActivities.length then
            let unassignedNode : HierarchyNode :=
              { id := "wbs-unassigned"
                type := .wbs
                name := "📁 Unassigned Activities (" ++
                  toString unassignedActivities.length ++ ")"
                level := 1
                children := unassignedActivities.length
                expanded := expandedNodes.contains "unassigned"
                isParent := true
                activities := unassignedActivities
                wbs_id := "unassigned"
                parent := "project-root"
                task_type := "WBS"
                status_code := "WBS" }
            unassignedNode ::
              (if unassignedNode.expanded then
                unassignedActivities.map (activityNode 2 "unassigned")
              else [])
          else []
        some (projectNode :: (treeNodes ++ unassignedPart))
    else some [projectNode]

end ActivitiesPage

namespace EnhancedActivitiesPage

/-- Record returned by `calculateWBSRollups`
(EnhancedActivitiesPage.tsx:404-434). -/
structure RollupData where
  progress_pct : Int
  early_start_date : Option Int
  early_end_date : Option Int
  duration_days : ℚ
  total_float_days : ℚ
deriving Repr, DecidableEq

/-- The `totalDuration` reduce of EnhancedActivitiesPage.tsx:421. -/
def totalDurationOf (acts : List Activity) : ℚ :=
  (acts.map fun a => a.duration_days.getD 0).sum

/-- The `avgProgress` expression of EnhancedActivitiesPage.tsx:422-423:
duration-weighted when the total duration is positive, 0 otherwise. -/
def avgProgressOf (acts : List Activity) : ℚ :=
  let totalDuration := totalDurationOf acts
  if 0 < totalDuration then
    (acts.map fun a => a.progress_pct.getD 0 * a.duration_days.getD 0).sum /
      totalDuration
  else 0

/-- `calculateWBSRollups` (EnhancedActivitiesPage.tsx:404-434). -/
def calculateWBSRollups (descendantActivities : List Activity) : RollupData :=
  if descendantActivities.length = 0 then
    { progress_pct := 0, early_start_date := none, early_end_date := none
      duration_days := 0, total_float_days := 0 }
  else
    let valid := validActivities descendantActivities
    let startDate : Option Int :=
      if valid.length > 0 then
        some (listMinI (valid.map fun a => a.early_start_date.getD 0))
      else none
    let endDate : Option Int :=
      if valid.length > 0 then
        some (listMaxI (valid.map fun a => a.early_end_date.getD 0))
      else none
    let minFloat :=
      if descendantActivities.length > 0 then
        listMinQ (descendantActivities.map fun a => a.total_float_days.getD 0)
      else 0
    { progress_pct := jsRound (avgProgressOf descendantActivities)
      early_start_date := startDate
      early_end_date := endDate
      duration_days := totalDurationOf descendantActivities
      total_float_days := minFloat }

/-- Tree node of the enhanced page (EnhancedActivitiesPage.tsx:71-101);
render-only passthrough fields (target/baseline dates, code/UDF maps,
resource names, remaining duration, the always-empty `children` array)
are not modelled — no claim mentions them. -/
structure TreeNode where
  id : String
  type : NodeType
  code : String
  name : String
  level : Nat
  isExpanded : Bool := false
  hasChildren : Bool := false
  activityCount : Nat := 0
  task_id : String := ""
  wbs_id : String := ""
  duration_days : Option ℚ := none
  progress_pct : Option ℚ := none
  total_float_days : Option ℚ := none
  early_start_date : Option Int := none
  early_end_date : Option Int := none
  actual_start_date : Option Int := none
  actual_end_date : Option Int := none
  task_type : String := ""
  status_code : String := ""
deriving Repr, DecidableEq

/-- `projectSummary` state, restricted to the fields the root node reads
(EnhancedActivitiesPage.tsx:103-117, 286-301). -/
structure ProjectSummary where
  project_start : Option Int := none
  project_finish : Option Int := none
  total_duration : ℚ := 0
  overall_progress : Int := 0
deriving Repr, DecidableEq

/-- `schedule` prop fields read by the root node. -/
structure Schedule where
  proj_id : String := ""
  proj_short_name : String := ""
  name : String := ""
deriving Repr, DecidableEq

/-- Grouping of EnhancedActivitiesPage.tsx:273-280: keyed by the raw
`wbs_id` (no "unassigned" fallback here). -/
def activitiesByWBS (acts : List Activity) (wbsId : String) : List Activity :=
  acts.filter fun a => a.wbs_id = wbsId

/-- `getAllDescendantActivities` (EnhancedActivitiesPage.tsx:397-402),
fueled; the `flatMap` over child WBS reuses
`ActivitiesPage.descendantsOfChildren`, which is the identical loop. -/
def getAllDescendantActivities (wbs : List WBSItem) (acts : List Activity) :
    Nat → String → Option (List Activity)
  | 0 => fun _ => none
  | fuel+1 => fun wbsId =>
    let direct := activitiesByWBS acts wbsId
    let childWBS := wbs.filter fun w => w.parent_wbs_id == wbsId
    match ActivitiesPage.descendantsOfChildren
        (getAllDescendantActivities wbs acts fuel) childWBS with
    | none => none
    | some childActivities => some (direct ++ childActivities)

/-- Root-level test of `buildWBSNodes`
(EnhancedActivitiesPage.tsx:312-314). -/
def isRootWBS (w : WBSItem) : Bool :=
  w.proj_node_flag == "Y" || w.level == 0 || w.parent_wbs_id == ""

/-- `wbs_code || wbs_name`, the tiebreak key of the WBS comparator. -/
def wbsSortKey (w : WBSItem) : String :=
  if w.wbs_code = "" then w.wbs_name else w.wbs_code

/-- Boolean order induced by the WBS comparator of
EnhancedActivitiesPage.tsx:317 (sort order, then code-or-name). -/
def wbsLe (a b : WBSItem) : Bool :=
  let sa := a.sort_order.getD 0
  let sb := b.sort_order.getD 0
  if sa = sb then decide (wbsSortKey a ≤ wbsSortKey b) else decide (sa < sb)

/-- Boolean order induced by the activity comparator of
EnhancedActivitiesPage.tsx:353-362 (activity code when both present and
distinct, otherwise start date with epoch-0 fallback). -/
def actLe (a b : Activity) : Bool :=
  if (a.activity_code != "") && (b.activity_code != "") &&
      (a.activity_code != b.activity_code) then
    decide (a.activity_code < b.activity_code)
  else
    decide (a.early_start_date.getD 0 ≤ b.early_start_date.getD 0)

/-- The activity node pushed at EnhancedActivitiesPage.tsx:363-392. -/
def activityNode (level : Nat) (a : Activity) : TreeNode :=
  { id := "activity-" ++ a.task_id
    type := .activity
    code := if a.activity_code = "" then a.task_id else a.activity_code
    name := if a.task_name = "" then "Unnamed Activity" else a.task_name
    level := level
    isExpanded := false
    hasChildren := false
    task_id := a.task_id
    wbs_id := a.wbs_id
    duration_days := a.duration_days
    progress_pct := a.progress_pct
    total_float_days := a.total_float_days
    early_start_date := a.early_start_date
    early_end_date := a.early_end_date
    actual_start_date := a.actual_start_date
    actual_end_date := a.actual_end_date
    task_type := a.task_type
    status_code := a.status_code }

/-- The WBS node pushed at EnhancedActivitiesPage.tsx:328-343. -/
def wbsNodeOf (expandedWBS : List String) (level : Nat) (w : WBSItem)
    (wbsActivities allDescendantActivities : List Activity)
    (hasChildWBS : Bool) : TreeNode :=
  let rollupData := calculateWBSRollups allDescendantActivities
  { id := "wbs-" ++ w.wbs_id
    type := .wbs
    code := if w.wbs_code = "" then "L" ++ toString w.level else w.wbs_code
    name := if w.wbs_name = "" then "Unnamed WBS" else w.wbs_name
    level := level
    isExpanded := expandedWBS.contains w.wbs_id
    hasChildren := hasChildWBS || decide (0 < wbsActivities.length)
    activityCount := allDescendantActivities.length
    wbs_id := w.wbs_id
    duration_days := some rollupData.duration_days
    progress_pct := some ((rollupData.progress_pct : ℤ) : ℚ)
    total_float_days := some rollupData.total_float_days
    early_start_date := rollupData.early_start_date
    early_end_date := rollupData.early_end_date
    task_type := "WBS" }

/-- The `forEach` body of `buildWBSNodes`
(EnhancedActivitiesPage.tsx:319-394): WBS node, then — only when the node
is expanded — child WBS subtrees followed by direct activities.  `desc`
and `tree` are the recursive calls one nesting level deeper. -/
def buildWBSNodesChildren (wbs : List WBSItem) (acts : List Activity)
    (expandedWBS : List String)
    (desc : String → Option (List Activity))
    (tree : Option String → Nat → Option (List TreeNode)) :
    Option String → Nat → List WBSItem → Option (List TreeNode)
  | _, _, [] => some []
  | parentId, level, w :: rest =>
    let wbsActivities := activitiesByWBS acts w.wbs_id
    let hasChildWBS := wbs.any fun x => x.parent_wbs_id == w.wbs_id
    let isExpanded := expandedWBS.contains w.wbs_id
    match desc w.wbs_id with
    | none => none
    | some allDescendantActivities =>
      let node := wbsNodeOf expandedWBS level w wbsActivities
        allDescendantActivities hasChildWBS
      match (if isExpanded && hasChildWBS then
          tree (some w.wbs_id) (level+1)
        else some []) with
      | none => none
      | some subWBS =>
        let actNodes :=
          if isExpanded then
            (sortLe actLe wbsActivities).map (activityNode (level+1))
          else []
        match buildWBSNodesChildren wbs acts expandedWBS desc tree parentId level rest with
        | none => none
        | some tail => some (node :: (subWBS ++ actNodes ++ tail))

/-- `buildWBSNodes` (EnhancedActivitiesPage.tsx:309-395), fueled. -/
def buildWBSNodes (wbs : List WBSItem) (acts : List Activity)
    (expandedWBS : List String) :
    Nat → Option String → Nat → Option (List TreeNode)
  | 0 => fun _ _ => none
  | fuel+1 => fun parentId level =>
    let childWBS := sortLe wbsLe (wbs.filter fun w =>
      match parentId with
      | none => isRootWBS w
      | some p => w.parent_wbs_id == p)
    buildWBSNodesChildren wbs acts expandedWBS
      (getAllDescendantActivities wbs acts fuel)
      (buildWBSNodes wbs acts expandedWBS fuel)
      parentId level childWBS

/-- The project root node pushed at EnhancedActivitiesPage.tsx:286-302. -/
def projectNodeOf (schedule : Schedule) (summary : ProjectSummary)
    (acts : List Activity) (expandedWBS : List String) : TreeNode :=
  { id := "project-root"
    type := .project
    code := if schedule.proj_id = "" then "PROJ" else schedule.proj_id
    name := if schedule.proj_short_name = "" then schedule.name
      else schedule.proj_short_name
    level := 0
    isExpanded := expandedWBS.contains "project-root"
    hasChildren := true
    activityCount := acts.length
    progress_pct := some ((summary.overall_progress : ℤ) : ℚ)
    early_start_date := summary.project_start
    early_end_date := summary.project_finish
    duration_days := some summary.total_duration
    task_type := "Project" }

/-- The `treeData` memo (EnhancedActivitiesPage.tsx:266-438). -/
def treeData (acts : List Activity) (wbs : List WBSItem)
    (expandedWBS : List String) (schedule : Schedule)
    (projectSummary : Option ProjectSummary) (fuel : Nat) :
    Option (List TreeNode) :=
  if wbs.length = 0 || acts.length = 0 then some []
  else
    match projectSummary with
    | none => some []
    | some summary =>
      let projectNode := projectNodeOf schedule summary acts expandedWBS
      if projectNode.isExpanded then
        match buildWBSNodes wbs acts expandedWBS fuel none 1 with
        | none => none
        | some sub => some (projectNode :: sub)
      else some [projectNode]

end EnhancedActivitiesPage

namespace GanttChart

/-- Milliseconds per day (`24 * 60 * 60 * 1000`). -/
def msPerDay : Int := 86400000

/-- `projectTimeline` (GanttChart.tsx:105-129): min/max of valid early
dates, padded 30 days on each side; `null` when there is no activity
with both dates. -/
structure Timeline where
  startMs : Int
  endMs : Int
  totalDays : Int
deriving Repr, DecidableEq

/-- `projectTimeline` (GanttChart.tsx:105-129). -/
def projectTimeline (acts : List Activity) : Option Timeline :=
  if acts.length = 0 then none
  else
    let valid := validActivities acts
    if valid.length = 0 then none
    else
      let projectStart := listMinI (valid.map fun a => a.early_start_date.getD 0)
      let projectEnd := listMaxI (valid.map fun a => a.early_end_date.getD 0)
      let timelineStart := projectStart - 30 * msPerDay
      let timelineEnd := projectEnd + 30 * msPerDay
      some { startMs := timelineStart
             endMs := timelineEnd
             totalDays := ⌈(((timelineEnd - timelineStart : ℤ)) : ℚ) / ((msPerDay : ℤ) : ℚ)⌉ }

/-- Gantt display node (GanttChart.tsx:34-52); the CSS `color` string is
not modelled — no claim mentions it. -/
structure GanttNode where
  id : String
  type : NodeType
  name : String
  level : Nat
  isExpanded : Bool := false
  planned_start : Option Int := none
  planned_end : Option Int := none
  actual_start : Option Int := none
  actual_end : Option Int := none
  progress : ℚ := 0
  duration : ℚ := 0
  float : ℚ := 0
  isCritical : Bool := false
  task_id : String := ""
  wbs_code : String := ""
  activityCount : Nat := 0
deriving Repr, DecidableEq

/-- Grouping of GanttChart.tsx:170-177: keyed by the raw `wbs_id`. -/
def activitiesByWBS (acts : List Activity) (wbsId : String) : List Activity :=
  acts.filter fun a => a.wbs_id = wbsId

/-- The WBS summary block of GanttChart.tsx:191-209.  Note: the duration
and progress accumulators are only assigned inside the
`validActivities.length > 0` branch, so a WBS whose direct activities all
lack a date rolls up duration 0. -/
structure WBSSummary where
  wbsStart : Option Int
  wbsEnd : Option Int
  totalDuration : ℚ
  weightedProgress : ℚ
deriving Repr, DecidableEq

/-- The WBS summary block of GanttChart.tsx:191-209, as a function of the
direct activities of the WBS node. -/
def wbsSummaryOf (wbsActivities : List Activity) : WBSSummary :=
  if 0 < wbsActivities.length then
    let valid := validActivities wbsActivities
    if 0 < valid.length then
      let wbsStart := listMinI (valid.map fun a => a.early_start_date.getD 0)
      let wbsEnd := listMaxI (valid.map fun a => a.early_end_date.getD 0)
      let totalDuration := (wbsActivities.map fun a => a.duration_days.getD 0).sum
      let weightedProgress :=
        if 0 < totalDuration then
          (wbsActivities.map fun a =>
            a.progress_pct.getD 0 * a.duration_days.getD 0).sum / totalDuration
        else 0
      { wbsStart := some wbsStart, wbsEnd := some wbsEnd
        totalDuration := totalDuration, weightedProgress := weightedProgress }
    else
      { wbsStart := none, wbsEnd := none, totalDuration := 0, weightedProgress := 0 }
  else
    { wbsStart := none, wbsEnd := none, totalDuration := 0, weightedProgress := 0 }

/-- Root-level test of `buildWBSNodes` (GanttChart.tsx:182). -/
def isRootWBS (w : WBSItem) : Bool :=
  w.level == 0 || w.parent_wbs_id == ""

/-- Boolean order induced by the activity comparator of
GanttChart.tsx:234-238 (start date with epoch-0 fallback). -/
def actLe (a b : Activity) : Bool :=
  decide (a.early_start_date.getD 0 ≤ b.early_start_date.getD 0)

/-- The WBS node pushed at GanttChart.tsx:211-228. -/
def wbsNodeOf (expandedWBS : List String) (level : Nat) (w : WBSItem)
    (wbsActivities : List Activity) : GanttNode :=
  let s := wbsSummaryOf wbsActivities
  { id := "wbs-" ++ w.wbs_id
    type := .wbs
    name := w.wbs_name
    level := level
    isExpanded := expandedWBS.contains w.wbs_id
    planned_start := s.wbsStart
    planned_end := s.wbsEnd
    actual_start := none
    actual_end := none
    progress := ((jsRound s.weightedProgress : ℤ) : ℚ)
    duration := s.totalDuration
    float := 0
    isCritical := false
    wbs_code := w.wbs_id
    activityCount := wbsActivities.length }

/-- The activity node pushed at GanttChart.tsx:239-261. -/
def activityNode (level : Nat) (a : Activity) : GanttNode :=
  let isCritical := decide (a.total_float_days.getD 0 = 0)
  { id := "activity-" ++ a.task_id
    type := .activity
    name := a.task_name
    level := level
    isExpanded := false
    planned_start := a.early_start_date
    planned_end := a.early_end_date
    actual_start := a.actual_start_date
    actual_end := a.actual_end_date
    progress := a.progress_pct.getD 0
    duration := a.duration_days.getD 0
    float := a.total_float_days.getD 0
    isCritical := isCritical
    task_id := a.task_id
    wbs_code := a.wbs_id }

/-- The `forEach` body of `buildWBSNodes` (GanttChart.tsx:187-266): WBS
node, then — only when the node is expanded — direct activities followed
by child WBS subtrees.  `tree` is the recursive call one nesting level
deeper. -/
def buildWBSNodesChildren (acts : List Activity) (expandedWBS : List String)
    (tree : Option String → Nat → Option (List GanttNode)) :
    Option String → Nat → List WBSItem → Option (List GanttNode)
  | _, _, [] => some []
  | parentId, level, w :: rest =>
    let wbsActivities := activitiesByWBS acts w.wbs_id
    let isExpanded := expandedWBS.contains w.wbs_id
    let node := wbsNodeOf expandedWBS level w wbsActivities
    match (if isExpanded then
        tree (some w.wbs_id) (level+1)
      else some []) with
    | none => none
    | some subWBS =>
      let actNodes :=
        if isExpanded then
          (sortLe actLe wbsActivities).map (activityNode (level+1))
        else []
      match buildWBSNodesChildren acts expandedWBS tree parentId level rest with
      | none => none
      | some tail => some (node :: (actNodes ++ subWBS ++ tail))

/-- `buildWBSNodes` (GanttChart.tsx:179-267), fueled. -/
def buildWBSNodes (wbs : List WBSItem) (acts : List Activity)
    (expandedWBS : List String) :
    Nat → Option String → Nat → Option (List GanttNode)
  | 0 => fun _ _ => none
  | fuel+1 => fun parentId level =>
    let childWBS := sortLe (fun a b => decide (a.wbs_name ≤ b.wbs_name))
      (wbs.filter fun w =>
        match parentId with
        | none => isRootWBS w
        | some p => w.parent_wbs_id == p)
    buildWBSNodesChildren acts expandedWBS
      (buildWBSNodes wbs acts expandedWBS fuel)
      parentId level childWBS

/-- The `ganttData` memo (GanttChart.tsx:166-271); there is no project
root node in this view. -/
def ganttData (acts : List Activity) (wbs : List WBSItem)
    (expandedWBS : List String) (fuel : Nat) : Option (List GanttNode) :=
  if (projectTimeline acts).isNone || wbs.length = 0 then some []
  else buildWBSNodes wbs acts expandedWBS fuel none 0

/-- `barType` argument of `calculateBarStyle`. -/
inductive BarType
  | planned
  | actual
deriving Repr, DecidableEq

/-- The positioning result of `calculateBarStyle`: `none` models
`{ display: 'none' }` (no bar rendered); otherwise the `left`/`width`
percentages.  Color/opacity styling is not modelled. -/
structure BarStyle where
  leftPercent : ℚ
  widthPercent : ℚ
deriving Repr, DecidableEq

/-- `barType === 'planned' ? node.planned_start : node.actual_start`
(GanttChart.tsx:277). -/
def barStartOf (node : GanttNode) : BarType → Option Int
  | .planned => node.planned_start
  | .actual => node.actual_start

/-- `barType === 'planned' ? node.planned_end : node.actual_end`
(GanttChart.tsx:278). -/
def barEndOf (node : GanttNode) : BarType → Option Int
  | .planned => node.planned_end
  | .actual => node.actual_end

/-- `calculateBarStyle` (GanttChart.tsx:274-295). -/
def calculateBarStyle (tl : Option Timeline) (node : GanttNode)
    (barType : BarType) : Option BarStyle :=
  match tl with
  | none => none
  | some t =>
    let startDate := barStartOf node barType
    let endDate := barEndOf node barType
    match startDate, endDate with
    | some sd, some ed =>
      let totalDays : ℚ := ((t.totalDays : ℤ) : ℚ)
      let startOffset : ℚ := (((sd - t.startMs : ℤ)) : ℚ) / ((msPerDay : ℤ) : ℚ)
      let duration : ℚ := (((ed - sd : ℤ)) : ℚ) / ((msPerDay : ℤ) : ℚ)
      some { leftPercent := startOffset / totalDays * 100
             widthPercent := max (duration / totalDays * 100) (1/2) }
    | _, _ => none

end GanttChart

/-- The rollup progress as spec §4.2 / claim C1 state it, written from the
spec's words for comparison with the implementations: duration-weighted
when total duration is positive, simple unweighted mean when total
duration is 0 but the list is non-empty, 0 when empty. -/
def claimedAvgProgress (acts : List Activity) : ℚ :=
  let totalDuration := (acts.map fun a => a.duration_days.getD 0).sum
  if acts.length = 0 then 0
  else if 0 < totalDuration then
    (acts.map fun a => a.progress_pct.getD 0 * a.duration_days.getD 0).sum /
      totalDuration
  else
    (acts.map fun a => a.progress_pct.getD 0).sum / (acts.length : ℚ)

namespace Ex

/-- Progress 0, duration 1. -/
def a1 : Activity := { task_id := "A1", progress_pct := some 0, duration_days := some 1 }

/-- Progress 100, duration 3. -/
def a2 : Activity := { task_id := "A2", progress_pct := some 100, duration_days := some 3 }

/-- Duration 10, start date present, end date null. -/
def a3 : Activity :=
  { task_id := "A3", duration_days := some 10, early_start_date := some 100
    progress_pct := some 40 }

/-- An activity whose `wbs_id` matches no WBS node. -/
def tX : Activity := { task_id := "T1", wbs_id := "X" }

/-- An activity assigned to WBS node `A`. -/
def tA : Activity := { task_id := "T9", wbs_id := "A" }

/-- Project info with no usable root sentinel ids. -/
def pI : ProjectInfo := { project_name := "P", schedule_name := "S" }

/-- Project info whose stringified project id is "7". -/
def pI7 : ProjectInfo := { project_id := some "7" }

/-- Root WBS node `A`. -/
def wA : WBSItem := { wbs_id := "A", wbs_name := "A" }

/-- WBS node `B`, child of `A` (level 9 so only its parent link makes it
reachable in the views whose root test looks at `level`). -/
def wB : WBSItem := { wbs_id := "B", wbs_name := "B", parent_wbs_id := "A", level := 9 }

/-- WBS node with id "X" whose parent is the project-id sentinel "7". -/
def wX : WBSItem := { wbs_id := "X", wbs_name := "X", parent_wbs_id := "7" }

/-- WBS node whose id "7" collides with the project-id sentinel and whose
parent is "X": together with `wX` the parent graph has the cycle X → 7 → X,
and it is reachable from the root level. -/
def w7 : WBSItem := { wbs_id := "7", wbs_name := "Seven", parent_wbs_id := "X" }

/-- A 60-day timeline window. -/
def tl : GanttChart.Timeline := { startMs := 0, endMs := 5184000000, totalDays := 60 }

/-- A Gantt node whose planned start and end coincide (a milestone). -/
def milestone : GanttChart.GanttNode :=
  { id := "n", type := .activity, name := "n", level := 0
    planned_start := some 86400000, planned_end := some 86400000 }

end Ex

end ScheduleAnalyzer

open ScheduleAnalyzer

/-- C8: each view's rollup applied to the empty activity list returns the
all-zero record with null dates (ActivitiesPage `calculateWBSStats`,
EnhancedActivitiesPage `calculateWBSRollups`, and the GanttChart WBS
summary block), and is a total function (never an error). -/
theorem rollup_empty_all_zero :
    ActivitiesPage.calculateWBSStats [] =
      { totalDuration := 0, avgProgress := 0, minFloat := 0
        startDate := none, endDate := none } ∧
    EnhancedActivitiesPage.calculateWBSRollups [] =
      { progress_pct := 0, early_start_date := none, early_end_date := none
        duration_days := 0, total_float_days := 0 } ∧
    GanttChart.wbsSummaryOf [] =
      { wbsStart := none, wbsEnd := none, totalDuration := 0
        weightedProgress := 0 } := by
  refine ⟨by decide, by decide, by decide⟩

/-- C9: for any timeline and any node with both dates of the selected bar
type present, `calculateBarStyle` positions a bar of width at least 0.5%
of the timeline, and exactly 0.5% when start and end coincide; a node
missing either date is not positioned at all. -/
theorem calculateBarStyle_min_width (t : GanttChart.Timeline)
    (node : GanttChart.GanttNode) (bt : GanttChart.BarType) :
    (∀ sd ed, GanttChart.barStartOf node bt = some sd →
      GanttChart.barEndOf node bt = some ed →
      ∃ st, GanttChart.calculateBarStyle (some t) node bt = some st ∧
        1/2 ≤ st.widthPercent ∧ (sd = ed → st.widthPercent = 1/2)) ∧
    (GanttChart.barStartOf node bt = none ∨
        GanttChart.barEndOf node bt = none →
      GanttChart.calculateBarStyle (some t) node bt = none) := by
  constructor
  · intro sd ed hs he
    refine ⟨{ leftPercent := ((sd : ℚ) - (t.startMs : ℚ)) / (GanttChart.msPerDay : ℚ) / (t.totalDays : ℚ) * 100, widthPercent := max (((ed : ℚ) - (sd : ℚ)) / (GanttChart.msPerDay : ℚ) / (t.totalDays : ℚ) * 100) (1/2) }, ?_, ?_, ?_⟩
    · simp [GanttChart.calculateBarStyle, hs, he]
    · exact le_max_right _ _
    · intro h
      subst h
      simp
  · intro h
    rcases h with h | h
    · simp [GanttChart.calculateBarStyle, h]
    · rcases hs : GanttChart.barStartOf node bt with _ | sd <;>
        simp [GanttChart.calculateBarStyle, hs, h]

/-- C9 witness: a milestone (identical start and end) on a concrete
timeline gets exactly the 0.5% minimum width. -/
theorem calculateBarStyle_min_width_witness :
    ∃ st, GanttChart.calculateBarStyle (some Ex.tl) Ex.milestone .planned = some st ∧
      1/2 ≤ st.widthPercent ∧ ((86400000 : Int) = 86400000 → st.widthPercent = 1/2) :=
  (calculateBarStyle_min_width Ex.tl Ex.milestone .planned).1 86400000 86400000 rfl rfl

/-- C1 counterexample: two activities with positive total duration 4
(durations 1 and 3, progresses 0 and 100).  The duration-weighted average
the claim requires is 75, but ActivitiesPage's `calculateWBSStats`
returns the unweighted mean 50 — so the claim fails at that call site. -/
theorem avgProgress_not_weighted_at_ActivitiesPage :
    (ActivitiesPage.calculateWBSStats [Ex.a1, Ex.a2]).totalDuration = 4 ∧
    (ActivitiesPage.calculateWBSStats [Ex.a1, Ex.a2]).avgProgress = 50 ∧
    claimedAvgProgress [Ex.a1, Ex.a2] = 75 ∧
    (ActivitiesPage.calculateWBSStats [Ex.a1, Ex.a2]).avgProgress ≠
      claimedAvgProgress [Ex.a1, Ex.a2] := by
  norm_num [ActivitiesPage.calculateWBSStats, claimedAvgProgress,
    validActivities, Ex.a1, Ex.a2]

/-- C1 amended: the three rollups compute progress differently.
ActivitiesPage's `calculateWBSStats` always returns the simple unweighted
mean (0 on the empty list); EnhancedActivitiesPage's rollup is
duration-weighted when total duration is positive and 0 otherwise (not
the unweighted mean); the GanttChart summary is duration-weighted only
when some direct activity has both dates and total duration is positive,
and 0 whenever no activity has both dates. -/
theorem avgProgress_per_site :
    (∀ acts : List Activity, acts ≠ [] →
      (ActivitiesPage.calculateWBSStats acts).avgProgress =
        (acts.map fun a => a.progress_pct.getD 0).sum / (acts.length : ℚ)) ∧
    ((ActivitiesPage.calculateWBSStats []).avgProgress = 0) ∧
    (∀ acts : List Activity,
      0 < (acts.map fun a => a.duration_days.getD 0).sum →
      EnhancedActivitiesPage.avgProgressOf acts =
        (acts.map fun a => a.progress_pct.getD 0 * a.duration_days.getD 0).sum /
          (acts.map fun a => a.duration_days.getD 0).sum) ∧
    (∀ acts : List Activity,
      ¬ 0 < (acts.map fun a => a.duration_days.getD 0).sum →
      EnhancedActivitiesPage.avgProgressOf acts = 0) ∧
    (∀ acts : List Activity, validActivities acts ≠ [] →
      0 < (acts.map fun a => a.duration_days.getD 0).sum →
      (GanttChart.wbsSummaryOf acts).weightedProgress =
        (acts.map fun a => a.progress_pct.getD 0 * a.duration_days.getD 0).sum /
          (acts.map fun a => a.duration_days.getD 0).sum) ∧
    (∀ acts : List Activity, validActivities acts = [] →
      (GanttChart.wbsSummaryOf acts).weightedProgress = 0) := by
  refine ⟨?_, by decide, ?_, ?_, ?_, ?_⟩
  · intro acts h
    cases acts with
    | nil => exact absurd rfl h
    | cons b bs => simp [ActivitiesPage.calculateWBSStats]
  · intro acts h
    simp [EnhancedActivitiesPage.avgProgressOf, EnhancedActivitiesPage.totalDurationOf, h]
  · intro acts h
    simp [EnhancedActivitiesPage.avgProgressOf, EnhancedActivitiesPage.totalDurationOf, h]
  · intro acts hv hd
    have hne : acts ≠ [] := by
      intro he
      rw [he] at hv
      exact hv rfl
    have hl : 0 < acts.length := List.length_pos.mpr hne
    have hvl : 0 < (validActivities acts).length := List.length_pos.mpr hv
    simp [GanttChart.wbsSummaryOf, hl, hvl, hd]
  · intro acts hv
    by_cases hl : 0 < acts.length
    · simp [GanttChart.wbsSummaryOf, hl, hv]
    · simp [GanttChart.wbsSummaryOf, hl]

/-- C1 amended witness: on the two-activity list with durations 1 and 3
the enhanced page's rollup is the duration-weighted mean. -/
theorem avgProgress_per_site_witness :
    0 < (([Ex.a1, Ex.a2] : List Activity).map fun a => a.duration_days.getD 0).sum ∧
    EnhancedActivitiesPage.avgProgressOf [Ex.a1, Ex.a2] =
      (([Ex.a1, Ex.a2] : List Activity).map fun a => a.progress_pct.getD 0 * a.duration_days.getD 0).sum /
        (([Ex.a1, Ex.a2] : List Activity).map fun a => a.duration_days.getD 0).sum :=
  ⟨by norm_num [Ex.a1, Ex.a2],
    avgProgress_per_site.2.2.1 [Ex.a1, Ex.a2] (by norm_num [Ex.a1, Ex.a2])⟩

/-- C2 counterexample: a single activity with duration 10 and a null end
date.  The claim requires every rollup call site to report
totalDuration = 10, but the GanttChart WBS summary reports 0 because it
only accumulates duration when at least one activity has both dates. -/
theorem ganttSummary_drops_duration_of_dateless :
    Ex.a3.duration_days = some 10 ∧
    Ex.a3.early_end_date = none ∧
    (GanttChart.wbsSummaryOf [Ex.a3]).totalDuration = 0 ∧
    (GanttChart.wbsSummaryOf [Ex.a3]).totalDuration ≠ 10 := by
  refine ⟨by decide, by decide, by decide, by decide⟩

/-- C2 amended: at `calculateWBSStats` and `calculateWBSRollups` an
activity missing either early date is excluded from the startDate/endDate
min/max but still adds its duration to totalDuration (so the
duration-10/null-end singleton yields totalDuration 10 there); at the
GanttChart summary block such an activity also loses its duration — a
singleton without both dates rolls up duration 0 and null dates. -/
theorem dateless_activity_excluded_from_dates_only :
    (∀ (acts : List Activity) (a : Activity),
      a.early_start_date = none ∨ a.early_end_date = none →
      (ActivitiesPage.calculateWBSStats (acts ++ [a])).startDate =
          (ActivitiesPage.calculateWBSStats acts).startDate ∧
        (ActivitiesPage.calculateWBSStats (acts ++ [a])).endDate =
          (ActivitiesPage.calculateWBSStats acts).endDate ∧
        (ActivitiesPage.calculateWBSStats (acts ++ [a])).totalDuration =
          (ActivitiesPage.calculateWBSStats acts).totalDuration +
            a.duration_days.getD 0) ∧
    (∀ (acts : List Activity) (a : Activity),
      a.early_start_date = none ∨ a.early_end_date = none →
      (EnhancedActivitiesPage.calculateWBSRollups (acts ++ [a])).early_start_date =
          (EnhancedActivitiesPage.calculateWBSRollups acts).early_start_date ∧
        (EnhancedActivitiesPage.calculateWBSRollups (acts ++ [a])).early_end_date =
          (EnhancedActivitiesPage.calculateWBSRollups acts).early_end_date ∧
        (EnhancedActivitiesPage.calculateWBSRollups (acts ++ [a])).duration_days =
          (EnhancedActivitiesPage.calculateWBSRollups acts).duration_days +
            a.duration_days.getD 0) ∧
    (∀ a : Activity, a.early_start_date = none ∨ a.early_end_date = none →
      (GanttChart.wbsSummaryOf [a]).totalDuration = 0 ∧
        (GanttChart.wbsSummaryOf [a]).wbsStart = none ∧
        (GanttChart.wbsSummaryOf [a]).wbsEnd = none) := by
  have hfilter : ∀ (acts : List Activity) (a : Activity),
      a.early_start_date = none ∨ a.early_end_date = none →
      validActivities (acts ++ [a]) = validActivities acts := by
    intro acts a h
    have hp : (a.early_start_date.isSome && a.early_end_date.isSome) = false := by
      rcases h with h | h <;> simp [h]
    simp [validActivities, List.filter_append, hp]
  refine ⟨?_, ?_, ?_⟩
  · intro acts a h
    cases acts with
    | nil =>
      have hp : (a.early_start_date.isSome && a.early_end_date.isSome) = false := by
        rcases h with h | h <;> simp [h]
      simp [ActivitiesPage.calculateWBSStats, validActivities, hp]
    | cons b bs =>
      have hv : validActivities (b :: (bs ++ [a])) = validActivities (b :: bs) := by
        simpa using hfilter (b :: bs) a h
      simp [ActivitiesPage.calculateWBSStats, hv, List.map_append,
        List.sum_append, add_assoc]
  · intro acts a h
    cases acts with
    | nil =>
      have hp : (a.early_start_date.isSome && a.early_end_date.isSome) = false := by
        rcases h with h | h <;> simp [h]
      simp [EnhancedActivitiesPage.calculateWBSRollups, validActivities,
        EnhancedActivitiesPage.totalDurationOf, hp]
    | cons b bs =>
      have hv : validActivities (b :: (bs ++ [a])) = validActivities (b :: bs) := by
        simpa using hfilter (b :: bs) a h
      simp [EnhancedActivitiesPage.calculateWBSRollups, hv,
        EnhancedActivitiesPage.totalDurationOf, List.map_append,
        List.sum_append, add_assoc]
  · intro a h
    have hp : (a.early_start_date.isSome && a.early_end_date.isSome) = false := by
      rcases h with h | h <;> simp [h]
    simp [GanttChart.wbsSummaryOf, validActivities, hp]

/-- Helper: `Math.round` maps `[0, 100]` into `[0, 100]`. -/
theorem jsRound_mem_Icc (q : ℚ) (h0 : 0 ≤ q) (h1 : q ≤ 100) :
    0 ≤ jsRound q ∧ jsRound q ≤ 100 := by
  unfold jsRound
  constructor
  · exact Int.le_floor.mpr (by push_cast; linarith)
  · have h : (⌊q + 1/2⌋ : ℤ) < 101 := Int.floor_lt.mpr (by push_cast; linarith)
    omega

/-- Helper: a duration-weighted average of values in `[0, 100]` with
non-negative weights lies in `[0, 100]`. -/
theorem weighted_avg_mem_Icc (acts : List Activity)
    (hp : ∀ a ∈ acts, 0 ≤ a.progress_pct.getD 0 ∧ a.progress_pct.getD 0 ≤ 100)
    (hd : ∀ a ∈ acts, 0 ≤ a.duration_days.getD 0) :
    0 ≤ EnhancedActivitiesPage.avgProgressOf acts ∧
      EnhancedActivitiesPage.avgProgressOf acts ≤ 100 := by
  unfold EnhancedActivitiesPage.avgProgressOf EnhancedActivitiesPage.totalDurationOf
  by_cases hpos : 0 < (acts.map fun a => a.duration_days.getD 0).sum
  · have hW0 : 0 ≤ (acts.map fun a => a.progress_pct.getD 0 * a.duration_days.getD 0).sum := by
      refine List.sum_nonneg ?_
      intro x hx
      obtain ⟨a, ha, rfl⟩ := List.mem_map.mp hx
      exact mul_nonneg (hp a ha).1 (hd a ha)
    have hW1 : (acts.map fun a => a.progress_pct.getD 0 * a.duration_days.getD 0).sum ≤
        100 * (acts.map fun a => a.duration_days.getD 0).sum := by
      calc (acts.map fun a => a.progress_pct.getD 0 * a.duration_days.getD 0).sum
          ≤ (acts.map fun a => 100 * a.duration_days.getD 0).sum := by
            refine List.sum_le_sum ?_
            intro a ha
            exact mul_le_mul_of_nonneg_right (hp a ha).2 (hd a ha)
        _ = 100 * (acts.map fun a => a.duration_days.getD 0).sum :=
            List.sum_map_mul_left acts (fun a => a.duration_days.getD 0) 100
    rw [if_pos hpos]
    constructor
    · exact div_nonneg hW0 hpos.le
    · rw [div_le_iff₀ hpos]
      linarith
  · rw [if_neg hpos]
    norm_num

/-- C10: if every activity's progress lies in [0, 100] and every duration
is non-negative, then the computed average progress — and its rounded
form stored on WBS nodes — lies in [0, 100], both for ActivitiesPage's
unweighted mean and for the enhanced page's duration-weighted rollup. -/
theorem avgProgress_in_range (acts : List Activity)
    (hp : ∀ a ∈ acts, 0 ≤ a.progress_pct.getD 0 ∧ a.progress_pct.getD 0 ≤ 100)
    (hd : ∀ a ∈ acts, 0 ≤ a.duration_days.getD 0) :
    (0 ≤ (ActivitiesPage.calculateWBSStats acts).avgProgress ∧
      (ActivitiesPage.calculateWBSStats acts).avgProgress ≤ 100) ∧
    (0 ≤ jsRound (ActivitiesPage.calculateWBSStats acts).avgProgress ∧
      jsRound (ActivitiesPage.calculateWBSStats acts).avgProgress ≤ 100) ∧
    (0 ≤ EnhancedActivitiesPage.avgProgressOf acts ∧
      EnhancedActivitiesPage.avgProgressOf acts ≤ 100) ∧
    (0 ≤ (EnhancedActivitiesPage.calculateWBSRollups acts).progress_pct ∧
      (EnhancedActivitiesPage.calculateWBSRollups acts).progress_pct ≤ 100) := by
  have hS0 : 0 ≤ (acts.map fun a => a.progress_pct.getD 0).sum := by
    refine List.sum_nonneg ?_
    intro x hx
    obtain ⟨a, ha, rfl⟩ := List.mem_map.mp hx
    exact (hp a ha).1
  have hS1 : (acts.map fun a => a.progress_pct.getD 0).sum ≤ 100 * acts.length := by
    have h := List.sum_le_card_nsmul (acts.map fun a => a.progress_pct.getD 0) 100 ?_
    · simpa [nsmul_eq_mul, mul_comm] using h
    · intro x hx
      obtain ⟨a, ha, rfl⟩ := List.mem_map.mp hx
      exact (hp a ha).2
  have hAP : 0 ≤ (ActivitiesPage.calculateWBSStats acts).avgProgress ∧
      (ActivitiesPage.calculateWBSStats acts).avgProgress ≤ 100 := by
    cases acts with
    | nil => refine ⟨by decide, by decide⟩
    | cons b bs =>
      have hval : (ActivitiesPage.calculateWBSStats (b :: bs)).avgProgress =
          ((b :: bs).map fun a => a.progress_pct.getD 0).sum / ((b :: bs).length : ℚ) := by
        simp [ActivitiesPage.calculateWBSStats]
      rw [hval]
      have hlen : (0 : ℚ) < ((b :: bs).length : ℚ) := by
        exact_mod_cast Nat.succ_pos bs.length
      constructor
      · exact div_nonneg hS0 hlen.le
      · rw [div_le_iff₀ hlen]
        calc ((b :: bs).map fun a => a.progress_pct.getD 0).sum
            ≤ 100 * (b :: bs).length := hS1
          _ = 100 * ((b :: bs).length : ℚ) := by norm_num
  have hEN := weighted_avg_mem_Icc acts hp hd
  have hENR : 0 ≤ (EnhancedActivitiesPage.calculateWBSRollups acts).progress_pct ∧
      (EnhancedActivitiesPage.calculateWBSRollups acts).progress_pct ≤ 100 := by
    cases acts with
    | nil => refine ⟨by decide, by decide⟩
    | cons b bs =>
      have hval : (EnhancedActivitiesPage.calculateWBSRollups (b :: bs)).progress_pct =
          jsRound (EnhancedActivitiesPage.avgProgressOf (b :: bs)) := by
        simp [EnhancedActivitiesPage.calculateWBSRollups]
      rw [hval]
      exact jsRound_mem_Icc _ hEN.1 hEN.2
  exact ⟨hAP, jsRound_mem_Icc _ hAP.1 hAP.2, hEN, hENR⟩

/-- C10 witness: the bounds hold on the concrete two-activity list with
progresses 0 and 100 and durations 1 and 3. -/
theorem avgProgress_in_range_witness :
    (0 ≤ (ActivitiesPage.calculateWBSStats [Ex.a1, Ex.a2]).avgProgress ∧
      (ActivitiesPage.calculateWBSStats [Ex.a1, Ex.a2]).avgProgress ≤ 100) ∧
    (0 ≤ jsRound (ActivitiesPage.calculateWBSStats [Ex.a1, Ex.a2]).avgProgress ∧
      jsRound (ActivitiesPage.calculateWBSStats [Ex.a1, Ex.a2]).avgProgress ≤ 100) ∧
    (0 ≤ EnhancedActivitiesPage.avgProgressOf [Ex.a1, Ex.a2] ∧
      EnhancedActivitiesPage.avgProgressOf [Ex.a1, Ex.a2] ≤ 100) ∧
    (0 ≤ (EnhancedActivitiesPage.calculateWBSRollups [Ex.a1, Ex.a2]).progress_pct ∧
      (EnhancedActivitiesPage.calculateWBSRollups [Ex.a1, Ex.a2]).progress_pct ≤ 100) :=
  avgProgress_in_range [Ex.a1, Ex.a2]
    (by norm_num [Ex.a1, Ex.a2]) (by norm_num [Ex.a1, Ex.a2])

/-- C4: evaluation at the failing input.  Activity T1 carries the
non-empty `wbs_id` "X" which matches no WBS node, yet the builder's
grouping keys it under "X" (only falsy ids fall back to "unassigned"), so
with the project root and the unassigned bucket both expanded the output
is just the project root: T1 appears nowhere and no unassigned node is
produced — T1 is silently dropped, contradicting the claim. -/
theorem unresolvable_wbs_activity_dropped :
    Ex.tX.wbs_id = "X" ∧
    ([] : List WBSItem) = [] ∧
    (ActivitiesPage.hierarchy [Ex.tX] [] (some Ex.pI)
        ["project-root", "unassigned"] 5).map (List.map fun n => n.id) =
      some ["project-root"] := by
  refine ⟨rfl, rfl, by decide⟩

/-- C6 counterexample: with two WBS nodes and one activity, the enhanced
page's root node carries `activityCount` 1 (the number of activities) and
an empty `children` list — no field of it equals the WBS-node count 2. -/
theorem enhanced_root_count_mismatch :
    (EnhancedActivitiesPage.treeData [Ex.tA] [Ex.wA, Ex.wB] ["project-root"]
        {} (some {}) 5).map (List.map fun n => (n.id, n.activityCount)) =
      some [("project-root", 1), ("wbs-A", 1)] ∧
    ([Ex.wA, Ex.wB] : List WBSItem).length = 2 ∧
    (1 : Nat) ≠ 2 := by
  refine ⟨by decide, by decide, by decide⟩

/-- C6 amended: at ActivitiesPage the root node is always first with
`children` equal to the WBS-node count and its expansion gates the whole
rest of the output; at EnhancedActivitiesPage the root (when present) is
first and gates everything, but it carries `activityCount` equal to the
number of activities, not the WBS-node count. -/
theorem project_root_first_and_gating :
    (∀ (acts : List Activity) (wbs : List WBSItem) (pInfo : ProjectInfo)
        (e : List String) (fuel : Nat) (out : List ActivitiesPage.HierarchyNode),
      ActivitiesPage.hierarchy acts wbs (some pInfo) e fuel = some out →
      ∃ rest, out = ActivitiesPage.projectNodeOf pInfo wbs e :: rest) ∧
    (∀ (acts : List Activity) (wbs : List WBSItem) (pInfo : ProjectInfo)
        (e : List String) (fuel : Nat),
      e.contains "project-root" = false →
      ActivitiesPage.hierarchy acts wbs (some pInfo) e fuel =
        some [ActivitiesPage.projectNodeOf pInfo wbs e]) ∧
    (∀ (pInfo : ProjectInfo) (wbs : List WBSItem) (e : List String),
      (ActivitiesPage.projectNodeOf pInfo wbs e).children = wbs.length) ∧
    (∀ (acts : List Activity) (wbs : List WBSItem) (e : List String)
        (sched : EnhancedActivitiesPage.Schedule)
        (summary : EnhancedActivitiesPage.ProjectSummary) (fuel : Nat)
        (out : List EnhancedActivitiesPage.TreeNode),
      EnhancedActivitiesPage.treeData acts wbs e sched (some summary) fuel = some out →
      out ≠ [] →
      ∃ rest, out = EnhancedActivitiesPage.projectNodeOf sched summary acts e :: rest) ∧
    (∀ (acts : List Activity) (wbs : List WBSItem) (e : List String)
        (sched : EnhancedActivitiesPage.Schedule)
        (summary : EnhancedActivitiesPage.ProjectSummary) (fuel : Nat),
      wbs ≠ [] → acts ≠ [] → e.contains "project-root" = false →
      EnhancedActivitiesPage.treeData acts wbs e sched (some summary) fuel =
        some [EnhancedActivitiesPage.projectNodeOf sched summary acts e]) ∧
    (∀ (sched : EnhancedActivitiesPage.Schedule)
        (summary : EnhancedActivitiesPage.ProjectSummary)
        (acts : List Activity) (e : List String),
      (EnhancedActivitiesPage.projectNodeOf sched summary acts e).activityCount =
        acts.length) := by
  refine ⟨?_, ?_, ?_, ?_, ?_, ?_⟩
  · intro acts wbs pInfo e fuel out hmain
    by_cases hexp : (ActivitiesPage.projectNodeOf pInfo wbs e).expanded
    · rw [ActivitiesPage.hierarchy, if_pos hexp] at hmain
      cases hbt : ActivitiesPage.buildWBSTree wbs acts pInfo e fuel none 1 with
      | none => rw [hbt] at hmain; exact absurd hmain (by simp)
      | some tree =>
        rw [hbt] at hmain
        exact ⟨_, (Option.some_injective _ hmain).symm⟩
    · rw [ActivitiesPage.hierarchy, if_neg hexp] at hmain
      exact ⟨[], (Option.some_injective _ hmain).symm⟩
  · intro acts wbs pInfo e fuel h
    have hexp : (ActivitiesPage.projectNodeOf pInfo wbs e).expanded = false := h
    rw [ActivitiesPage.hierarchy, if_neg (by rw [hexp]; exact Bool.false_ne_true)]
  · intro pInfo wbs e
    rfl
  · intro acts wbs e sched summary fuel out hmain hne
    rw [EnhancedActivitiesPage.treeData] at hmain
    by_cases hguard : wbs.length = 0 || acts.length = 0
    · rw [if_pos hguard] at hmain
      exact absurd (Option.some_injective _ hmain).symm hne
    · rw [if_neg hguard] at hmain
      by_cases hexp : (EnhancedActivitiesPage.projectNodeOf sched summary acts e).isExpanded
      · rw [if_pos hexp] at hmain
        cases hbt : EnhancedActivitiesPage.buildWBSNodes wbs acts e fuel none 1 with
        | none => rw [hbt] at hmain; exact absurd hmain (by simp)
        | some sub =>
          rw [hbt] at hmain
          exact ⟨_, (Option.some_injective _ hmain).symm⟩
      · rw [if_neg hexp] at hmain
        exact ⟨[], (Option.some_injective _ hmain).symm⟩
  · intro acts wbs e sched summary fuel hw ha h
    have hguard : (wbs.length = 0 || acts.length = 0) = false := by
      simp [List.length_eq_zero, hw, ha]
    have hexp : (EnhancedActivitiesPage.projectNodeOf sched summary acts e).isExpanded = false := h
    rw [EnhancedActivitiesPage.treeData, if_neg (by rw [hguard]; exact Bool.false_ne_true),
      if_neg (by rw [hexp]; exact Bool.false_ne_true)]
  · intro sched summary acts e
    rfl

/-- C6 amended witness: with the root not in the expanded set, the
ActivitiesPage output is exactly the singleton project root node. -/
theorem project_root_first_and_gating_witness :
    ([ ] : List String).contains "project-root" = false ∧
    ActivitiesPage.hierarchy [] [Ex.wA] (some Ex.pI) [] 3 =
      some [ActivitiesPage.projectNodeOf Ex.pI [Ex.wA] []] :=
  ⟨rfl, project_root_first_and_gating.2.1 [] [Ex.wA] Ex.pI [] 3 rfl⟩

/-- C5 counterexample: WBS node A is collapsed (only the project root is
in the expanded set), yet ActivitiesPage still emits its child WBS node B
— collapsing does not remove WBS descendants there, contradicting the
claim's "all of its descendants appear iff its expansion flag is true". -/
theorem collapsed_node_keeps_child_wbs :
    (["project-root"] : List String).contains "A" = false ∧
    Ex.wB.parent_wbs_id = Ex.wA.wbs_id ∧
    (ActivitiesPage.hierarchy [] [Ex.wA, Ex.wB] (some Ex.pI) ["project-root"] 5).map
        (List.map fun n => n.id) = some ["project-root", "wbs-A", "wbs-B"] := by
  refine ⟨by decide, rfl, by decide⟩

/-- C5 amended: a WBS node always appears in its own contribution, with
child/activity counts computed independently of its expansion flag, but
the gating differs per view: at GanttChart (and EnhancedActivitiesPage) a
collapsed node contributes neither its direct activities nor its child
WBS subtrees, while at ActivitiesPage the flag gates only the direct
activities — the child WBS subtrees are emitted even when the node is
collapsed. -/
theorem expansion_gating_per_site :
    (∀ (acts : List Activity) (e : List String)
        (tree : Option String → Nat → Option (List GanttChart.GanttNode))
        (p : Option String) (level : Nat) (w : WBSItem)
        (rest : List WBSItem) (tail : List GanttChart.GanttNode),
      e.contains w.wbs_id = false →
      GanttChart.buildWBSNodesChildren acts e tree p level rest = some tail →
      GanttChart.buildWBSNodesChildren acts e tree p level (w :: rest) =
        some (GanttChart.wbsNodeOf e level w
          (GanttChart.activitiesByWBS acts w.wbs_id) :: tail)) ∧
    (∀ (acts : List Activity) (e : List String)
        (tree : Option String → Nat → Option (List GanttChart.GanttNode))
        (p : Option String) (level : Nat) (w : WBSItem)
        (rest : List WBSItem) (sub tail : List GanttChart.GanttNode),
      e.contains w.wbs_id = true →
      tree (some w.wbs_id) (level+1) = some sub →
      GanttChart.buildWBSNodesChildren acts e tree p level rest = some tail →
      GanttChart.buildWBSNodesChildren acts e tree p level (w :: rest) =
        some (GanttChart.wbsNodeOf e level w
            (GanttChart.activitiesByWBS acts w.wbs_id) ::
          ((sortLe GanttChart.actLe (GanttChart.activitiesByWBS acts w.wbs_id)).map
              (GanttChart.activityNode (level+1)) ++ sub ++ tail))) ∧
    (∀ (e1 e2 : List String) (level : Nat) (w : WBSItem) (as : List Activity),
      (GanttChart.wbsNodeOf e1 level w as).activityCount =
        (GanttChart.wbsNodeOf e2 level w as).activityCount) ∧
    (∀ (acts : List Activity) (e : List String)
        (desc : String → Option (List Activity))
        (tree : Option String → Nat → Option (List ActivitiesPage.HierarchyNode))
        (p : Option String) (level : Nat) (w : WBSItem)
        (rest : List WBSItem) (D : List Activity)
        (sub tail : List ActivitiesPage.HierarchyNode),
      e.contains w.wbs_id = false →
      desc w.wbs_id = some D →
      tree (some w.wbs_id) (level+1) = some sub →
      ActivitiesPage.buildWBSChildren acts e desc tree p level rest = some tail →
      ActivitiesPage.buildWBSChildren acts e desc tree p level (w :: rest) =
        some (ActivitiesPage.wbsNodeOf e p level w
            (ActivitiesPage.activitiesByWBS acts w.wbs_id)
            (ActivitiesPage.calculateWBSStats D) :: (sub ++ tail))) ∧
    (∀ (e1 e2 : List String) (p : Option String) (level : Nat) (w : WBSItem)
        (direct : List Activity) (stats : ActivitiesPage.WBSStats),
      (ActivitiesPage.wbsNodeOf e1 p level w direct stats).children =
        (ActivitiesPage.wbsNodeOf e2 p level w direct stats).children) := by
  refine ⟨?_, ?_, ?_, ?_, ?_⟩
  · intro acts e tree p level w rest tail h htail
    have hmem : w.wbs_id ∉ e := by simpa using h
    simp [GanttChart.buildWBSNodesChildren, h, hmem, htail]
  · intro acts e tree p level w rest sub tail h hsub htail
    have hmem : w.wbs_id ∈ e := by simpa using h
    simp [GanttChart.buildWBSNodesChildren, h, hmem, hsub, htail]
  · intro e1 e2 level w as
    rfl
  · intro acts e desc tree p level w rest D sub tail h hdesc hsub htail
    have hmem : w.wbs_id ∉ e := by simpa using h
    simp [ActivitiesPage.buildWBSChildren, ActivitiesPage.wbsNodeOf,
      h, hmem, hdesc, hsub, htail]
  · intro e1 e2 p level w direct stats
    rfl

/-- C5 amended witness: on a concrete collapsed node the GanttChart step
emits exactly the node itself. -/
theorem expansion_gating_per_site_witness :
    (["project-root"] : List String).contains Ex.wA.wbs_id = false ∧
    GanttChart.buildWBSNodesChildren [] ["project-root"]
        (fun _ _ => some []) none 0 [Ex.wA] =
      some [GanttChart.wbsNodeOf ["project-root"] 0 Ex.wA
        (GanttChart.activitiesByWBS [] Ex.wA.wbs_id)] :=
  ⟨by decide, expansion_gating_per_site.1 [] ["project-root"]
    (fun _ _ => some []) none 0 Ex.wA [] [] (by decide) rfl⟩

/-- Helper for C3: in the two-node input whose parent cycle X → 7 → X is
reachable (node "7"'s id collides with the project-id sentinel),
`getAllDescendantActivities` exhausts every finite fuel on both cycle
ids — the source recursion never terminates. -/
theorem cycle_desc_none : ∀ fuel,
    ActivitiesPage.getAllDescendantActivities [Ex.wX, Ex.w7] [] fuel "X" = none ∧
    ActivitiesPage.getAllDescendantActivities [Ex.wX, Ex.w7] [] fuel "7" = none := by
  intro fuel
  induction fuel with
  | zero => exact ⟨rfl, rfl⟩
  | succ fuel ih =>
    simp only [Ex.wX, Ex.w7] at ih
    constructor
    · simp only [ActivitiesPage.getAllDescendantActivities,
        ActivitiesPage.descendantsOfChildren, ActivitiesPage.activitiesByWBS,
        ActivitiesPage.wbsKey, List.filter, Ex.wX, Ex.w7, ih.1, ih.2]
    · simp only [ActivitiesPage.getAllDescendantActivities,
        ActivitiesPage.descendantsOfChildren, ActivitiesPage.activitiesByWBS,
        ActivitiesPage.wbsKey, List.filter, Ex.wX, Ex.w7, ih.1, ih.2]

/-- C3: evaluation at the failing input.  The WBS input `[wX, w7]` has the
parent-link cycle X → 7 → X; because node `w7`'s id "7" equals the
stringified project id, node `wX` passes the root test and the cycle is
reachable from the root level, so the builder recurses forever: the
fueled embedding returns `none` (fuel exhausted) for every finite fuel,
i.e. the source `hierarchy` computation does not terminate, contradicting
the claim that the builder terminates on every cyclic input. -/
theorem builder_diverges_on_reachable_cycle :
    Ex.wX.parent_wbs_id = Ex.w7.wbs_id ∧
    Ex.w7.parent_wbs_id = Ex.wX.wbs_id ∧
    Ex.pI7.project_id = some Ex.w7.wbs_id ∧
    ∀ fuel, ActivitiesPage.hierarchy [] [Ex.wX, Ex.w7] (some Ex.pI7)
      ["project-root"] fuel = none := by
  refine ⟨rfl, rfl, rfl, ?_⟩
  intro fuel
  cases fuel with
  | zero => rfl
  | succ fuel =>
    have hdesc := (cycle_desc_none fuel).1
    simp only [Ex.wX, Ex.w7] at hdesc
    simp only [ActivitiesPage.hierarchy, ActivitiesPage.buildWBSTree,
      ActivitiesPage.buildWBSChildren, ActivitiesPage.isRootWBS,
      ActivitiesPage.projectNodeOf, sortLe, insLe, List.filter,
      Ex.wX, Ex.w7, Ex.pI7, hdesc]
    rfl

/-- Helper for C7: the ActivitiesPage per-child loop depends on the
expanded set only through membership. -/
theorem ap_buildWBSChildren_ext (acts : List Activity) (e1 e2 : List String)
    (desc : String → Option (List Activity))
    (tree1 tree2 : Option String → Nat → Option (List ActivitiesPage.HierarchyNode))
    (h : ∀ s, e1.contains s = e2.contains s)
    (ht : ∀ p level, tree1 p level = tree2 p level) :
    ∀ (p : Option String) (level : Nat) (l : List WBSItem),
      ActivitiesPage.buildWBSChildren acts e1 desc tree1 p level l =
        ActivitiesPage.buildWBSChildren acts e2 desc tree2 p level l := by
  intro p level l
  induction l with
  | nil => rfl
  | cons w rest ih =>
    cases hd : desc w.wbs_id with
    | none => simp only [ActivitiesPage.buildWBSChildren, hd]
    | some D =>
      have hnode : ∀ direct stats, ActivitiesPage.wbsNodeOf e1 p level w direct stats =
          ActivitiesPage.wbsNodeOf e2 p level w direct stats := by
        intro direct stats
        unfold ActivitiesPage.wbsNodeOf
        rw [h w.wbs_id]
      simp only [ActivitiesPage.buildWBSChildren, hd, hnode,
        ht (some w.wbs_id) (level+1), ih]

/-- Helper for C7: `buildWBSTree` depends on the expanded set only through
membership. -/
theorem ap_buildWBSTree_ext (wbs : List WBSItem) (acts : List Activity)
    (pInfo : ProjectInfo) (e1 e2 : List String)
    (h : ∀ s, e1.contains s = e2.contains s) :
    ∀ (fuel : Nat) (p : Option String) (level : Nat),
      ActivitiesPage.buildWBSTree wbs acts pInfo e1 fuel p level =
        ActivitiesPage.buildWBSTree wbs acts pInfo e2 fuel p level := by
  intro fuel
  induction fuel with
  | zero => intro p level; rfl
  | succ fuel ih =>
    intro p level
    simp only [ActivitiesPage.buildWBSTree]
    exact ap_buildWBSChildren_ext acts e1 e2 _ _ _ h ih _ _ _

/-- Helper for C7: the Gantt per-child loop depends on the expanded set
only through membership. -/
theorem gc_buildWBSNodesChildren_ext (acts : List Activity)
    (e1 e2 : List String)
    (tree1 tree2 : Option String → Nat → Option (List GanttChart.GanttNode))
    (h : ∀ s, e1.contains s = e2.contains s)
    (ht : ∀ p level, tree1 p level = tree2 p level) :
    ∀ (p : Option String) (level : Nat) (l : List WBSItem),
      GanttChart.buildWBSNodesChildren acts e1 tree1 p level l =
        GanttChart.buildWBSNodesChildren acts e2 tree2 p level l := by
  intro p level l
  induction l with
  | nil => rfl
  | cons w rest ih =>
    have hnode : ∀ as, GanttChart.wbsNodeOf e1 level w as =
        GanttChart.wbsNodeOf e2 level w as := by
      intro as
      unfold GanttChart.wbsNodeOf
      rw [h w.wbs_id]
    simp only [GanttChart.buildWBSNodesChildren, h w.wbs_id, hnode,
      ht (some w.wbs_id) (level+1), ih]

/-- Helper for C7: the Gantt `buildWBSNodes` depends on the expanded set
only through membership. -/
theorem gc_buildWBSNodes_ext (wbs : List WBSItem) (acts : List Activity)
    (e1 e2 : List String) (h : ∀ s, e1.contains s = e2.contains s) :
    ∀ (fuel : Nat) (p : Option String) (level : Nat),
      GanttChart.buildWBSNodes wbs acts e1 fuel p level =
        GanttChart.buildWBSNodes wbs acts e2 fuel p level := by
  intro fuel
  induction fuel with
  | zero => intro p level; rfl
  | succ fuel ih =>
    intro p level
    simp only [GanttChart.buildWBSNodes]
    exact gc_buildWBSNodesChildren_ext acts e1 e2 _ _ h ih _ _ _

/-- C7: the hierarchy builders are deterministic functions of the
membership of the expanded set — two runs with equal activity lists,
equal WBS lists and expanded sets of identical membership (not
necessarily the same list/insertion order) produce identical output
sequences, both for ActivitiesPage's `hierarchy` and GanttChart's
`ganttData`. -/
theorem hierarchy_deterministic (acts : List Activity) (wbs : List WBSItem)
    (pInfoOpt : Option ProjectInfo) (e1 e2 : List String) (fuel : Nat)
    (h : ∀ s, e1.contains s = e2.contains s) :
    ActivitiesPage.hierarchy acts wbs pInfoOpt e1 fuel =
      ActivitiesPage.hierarchy acts wbs pInfoOpt e2 fuel ∧
    GanttChart.ganttData acts wbs e1 fuel =
      GanttChart.ganttData acts wbs e2 fuel := by
  constructor
  · cases pInfoOpt with
    | none => rfl
    | some pInfo =>
      have hroot : ActivitiesPage.projectNodeOf pInfo wbs e1 =
          ActivitiesPage.projectNodeOf pInfo wbs e2 := by
        unfold ActivitiesPage.projectNodeOf
        rw [h "project-root"]
      simp only [ActivitiesPage.hierarchy, hroot,
        ap_buildWBSTree_ext wbs acts pInfo e1 e2 h fuel none 1, h "unassigned"]
  · simp only [GanttChart.ganttData,
      gc_buildWBSNodes_ext wbs acts e1 e2 h fuel none 0]

/-- C7 witness: two expanded lists with the same membership but different
order and multiplicity yield identical outputs on a concrete input. -/
theorem hierarchy_deterministic_witness :
    ActivitiesPage.hierarchy [] [Ex.wA] (some Ex.pI) ["project-root", "A"] 3 =
      ActivitiesPage.hierarchy [] [Ex.wA] (some Ex.pI) ["A", "project-root", "A"] 3 ∧
    GanttChart.ganttData [] [Ex.wA] ["project-root", "A"] 3 =
      GanttChart.ganttData [] [Ex.wA] ["A", "project-root", "A"] 3 :=
  hierarchy_deterministic [] [Ex.wA] (some Ex.pI)
    ["project-root", "A"] ["A", "project-root", "A"] 3
    (by
      intro s
      by_cases h1 : s = "project-root" <;> by_cases h2 : s = "A" <;>
        simp [h1, h2, List.contains])

/-- C2 amended witness: appending the duration-10/null-end activity to the
empty list leaves the ActivitiesPage dates null and yields duration 10. -/
theorem dateless_activity_excluded_from_dates_only_witness :
    (ActivitiesPage.calculateWBSStats ([] ++ [Ex.a3])).startDate =
        (ActivitiesPage.calculateWBSStats []).startDate ∧
      (ActivitiesPage.calculateWBSStats ([] ++ [Ex.a3])).endDate =
        (ActivitiesPage.calculateWBSStats []).endDate ∧
      (ActivitiesPage.calculateWBSStats ([] ++ [Ex.a3])).totalDuration =
        (ActivitiesPage.calculateWBSStats []).totalDuration +
          Ex.a3.duration_days.getD 0 :=
  dateless_activity_excluded_from_dates_only.1 [] Ex.a3 (Or.inr rfl)
